import Mathlib

/-!
Shallow embedding of `src/services/resumeService.ts` (ResumePlus).

The TypeScript service validates a PDF document, sends it to a remote
inference service, and validates/normalizes the JSON text that comes back.
We embed the pure logic directly:

* `Json` models the value a successful JavaScript `JSON.parse` produces;
  `parseJson` is a strict RFC-8259 recursive-descent parser written with
  structural recursion on a fuel counter so the kernel can evaluate it.
* `processResponse` models `ResumeService.processResponse`: code-fence
  stripping (`replace(/```json/g,'')`, `replace(/```/g,'')`, `trim()`),
  `JSON.parse`, the shallow structure check, and the surrounding
  `try/catch` that rethrows every failure as
  `'Failed to parse analysis results'`.
* The facade methods `analyzeResume`, `analyzeResumeFromUrl` and
  `analyzeWithGemini` are embedded with the remote call abstracted by the
  raw text the environment would return, plus an outbound-request counter
  so "no network activity" is a provable statement.
-/

set_option maxRecDepth 40000

namespace ResumePlus

/-- Opening brace character (code point 123). -/
def lbrace : Char := Char.ofNat 123

/-- Closing brace character (code point 125). -/
def rbrace : Char := Char.ofNat 125

/-- A JavaScript value produced by `JSON.parse`: numbers are kept exactly as
`mantissa * 10 ^ exp10`, objects keep their members in insertion order. -/
inductive Json where
  | null : Json
  | bool (b : Bool) : Json
  | num (mantissa : Int) (exp10 : Int) : Json
  | str (s : String) : Json
  | arr (elems : List Json) : Json
  | obj (members : List (String × Json)) : Json

/-- Whitespace accepted between JSON tokens (as in RFC 8259). -/
def isWsChar (c : Char) : Bool :=
  c = ' ' || c = '\t' || c = '\n' || c = '\r'

/-- Drop leading JSON whitespace. -/
def skipWs : List Char → List Char
  | [] => []
  | c :: cs => if isWsChar c then skipWs cs else c :: cs

/-- Longest run of leading decimal digits, with the remainder. -/
def takeDigits : List Char → List Char × List Char
  | [] => ([], [])
  | c :: cs =>
    if c.isDigit then
      let p := takeDigits cs
      (c :: p.1, p.2)
    else ([], c :: cs)

/-- Decimal value of a digit run. -/
def digitsToNat : List Char → Nat → Nat
  | [], acc => acc
  | c :: cs, acc => digitsToNat cs (acc * 10 + (c.toNat - 48))

/-- Value of one hexadecimal digit, if the character is one. -/
def hexDigitVal (c : Char) : Option Nat :=
  if '0' ≤ c && c ≤ '9' then some (c.toNat - 48)
  else if 'a' ≤ c && c ≤ 'f' then some (c.toNat - 87)
  else if 'A' ≤ c && c ≤ 'F' then some (c.toNat - 55)
  else none

/-- Prepend a character to the pending string of a string-parser result. -/
def consStr (c : Char) : Option (List Char × List Char) → Option (List Char × List Char)
  | none => none
  | some (s, rest) => some (c :: s, rest)

/-- Parse the body of a JSON string after its opening quote: returns the
decoded characters and the input after the closing quote. -/
def parseStringRest : List Char → Option (List Char × List Char)
  | [] => none
  | c :: cs =>
    if c = '"' then some ([], cs)
    else if c = '\\' then
      match cs with
      | [] => none
      | e :: cs2 =>
        if e = '"' then consStr '"' (parseStringRest cs2)
        else if e = '\\' then consStr '\\' (parseStringRest cs2)
        else if e = '/' then consStr '/' (parseStringRest cs2)
        else if e = 'b' then consStr (Char.ofNat 8) (parseStringRest cs2)
        else if e = 'f' then consStr (Char.ofNat 12) (parseStringRest cs2)
        else if e = 'n' then consStr '\n' (parseStringRest cs2)
        else if e = 'r' then consStr '\r' (parseStringRest cs2)
        else if e = 't' then consStr '\t' (parseStringRest cs2)
        else if e = 'u' then
          match cs2 with
          | h1 :: h2 :: h3 :: h4 :: cs3 =>
            match hexDigitVal h1, hexDigitVal h2, hexDigitVal h3, hexDigitVal h4 with
            | some a, some b, some c3, some d =>
              consStr (Char.ofNat (((a * 16 + b) * 16 + c3) * 16 + d)) (parseStringRest cs3)
            | _, _, _, _ => none
          | _ => none
        else none
    else if c.toNat < 32 then none
    else consStr c (parseStringRest cs)

/-- Parse a JSON number (strict grammar: optional sign, no leading zeros,
optional fraction and exponent). -/
def parseNumber (cs0 : List Char) : Option (Json × List Char) :=
  let sp := match cs0 with
    | '-' :: r => (true, r)
    | _ => (false, cs0)
  let neg := sp.1
  match sp.2 with
  | [] => none
  | c :: _ =>
    if !c.isDigit then none
    else
      let ip := takeDigits sp.2
      if c = '0' && ip.1.length > 1 then none
      else
        let fr : Option (List Char × List Char) := match ip.2 with
          | '.' :: r =>
            let t := takeDigits r
            if t.1.isEmpty then none else some t
          | _ => some ([], ip.2)
        match fr with
        | none => none
        | some (fracDigits, cs3) =>
          let mag : Int := Int.ofNat (digitsToNat (ip.1 ++ fracDigits) 0)
          let mantissa : Int := if neg then -mag else mag
          let ex : Option (Int × List Char) := match cs3 with
            | e :: r =>
              if e = 'e' || e = 'E' then
                let sgn : Int × List Char := match r with
                  | '+' :: r2 => (1, r2)
                  | '-' :: r2 => (-1, r2)
                  | _ => (1, r)
                let t := takeDigits sgn.2
                if t.1.isEmpty then none
                else some (sgn.1 * Int.ofNat (digitsToNat t.1 0), t.2)
              else some (0, cs3)
            | [] => some (0, cs3)
          match ex with
          | none => none
          | some (expVal, cs4) =>
            some (Json.num mantissa (expVal - Int.ofNat fracDigits.length), cs4)

/-- Match a literal keyword tail and yield the given value. -/
def matchLit (lit : List Char) (cs : List Char) (v : Json) : Option (Json × List Char) :=
  match lit, cs with
  | [], rest => some (v, rest)
  | l :: ls, c :: rest => if c = l then matchLit ls rest v else none
  | _ :: _, [] => none

/-- Parser state: a whole value, the elements of an open array, or the
members of an open object. -/
inductive PMode where
  | value : PMode
  | elems (acc : List Json) : PMode
  | members (acc : List (String × Json)) : PMode

/-- Recursive-descent core; structural recursion on `fuel`, every recursive
call spends one unit. -/
def parseCore : Nat → PMode → List Char → Option (Json × List Char)
  | 0, _, _ => none
  | fuel + 1, PMode.value, cs =>
    match skipWs cs with
    | [] => none
    | c :: cs1 =>
      if c = lbrace then
        match skipWs cs1 with
        | d :: cs2 => if d = rbrace then some (Json.obj [], cs2)
                      else parseCore fuel (PMode.members []) (d :: cs2)
        | [] => none
      else if c = '[' then
        match skipWs cs1 with
        | ']' :: cs2 => some (Json.arr [], cs2)
        | cs2 => parseCore fuel (PMode.elems []) cs2
      else if c = '"' then
        match parseStringRest cs1 with
        | some (sChars, rest) => some (Json.str (String.mk sChars), rest)
        | none => none
      else if c = 't' then matchLit ['r', 'u', 'e'] cs1 (Json.bool true)
      else if c = 'f' then matchLit ['a', 'l', 's', 'e'] cs1 (Json.bool false)
      else if c = 'n' then matchLit ['u', 'l', 'l'] cs1 Json.null
      else parseNumber (c :: cs1)
  | fuel + 1, PMode.elems acc, cs =>
    match parseCore fuel PMode.value cs with
    | none => none
    | some (v, rest) =>
      match skipWs rest with
      | ',' :: rest2 => parseCore fuel (PMode.elems (acc ++ [v])) rest2
      | ']' :: rest2 => some (Json.arr (acc ++ [v]), rest2)
      | _ => none
  | fuel + 1, PMode.members acc, cs =>
    match skipWs cs with
    | c :: cs1 =>
      if c = '"' then
        match parseStringRest cs1 with
        | none => none
        | some (kChars, rest) =>
          match skipWs rest with
          | ':' :: rest2 =>
            match parseCore fuel PMode.value rest2 with
            | none => none
            | some (v, rest3) =>
              match skipWs rest3 with
              | ',' :: rest4 =>
                parseCore fuel (PMode.members (acc ++ [(String.mk kChars, v)])) rest4
              | d :: rest4 =>
                if d = rbrace then some (Json.obj (acc ++ [(String.mk kChars, v)]), rest4)
                else none
              | [] => none
          | _ => none
      else none
    | [] => none

/-- Model of JavaScript `JSON.parse`: parse one value and require only
whitespace after it. `2 * length + 8` fuel always suffices since every
recursive call consumes input. -/
def parseJson (cs : List Char) : Option Json :=
  match parseCore (2 * cs.length + 8) PMode.value cs with
  | some (v, rest) => if (skipWs rest).isEmpty then some v else none
  | none => none

/-- Drop `pat` when it is a non-empty leading pattern of `cs`, returning the
remainder. -/
def stripPat : List Char → List Char → Option (List Char)
  | [], _ => none
  | _ :: _, [] => none
  | p :: ps, c :: cs =>
    if c = p then
      match ps with
      | [] => some cs
      | _ :: _ => stripPat ps cs
    else none

/-- Remove every occurrence of `pat`, scanning left to right and continuing
after each removal — the behaviour of JavaScript
`text.replace(/pat/g, '')`. Structural on `fuel`. -/
def stripAllFuel (pat : List Char) : Nat → List Char → List Char
  | 0, cs => cs
  | _ + 1, [] => []
  | fuel + 1, c :: cs =>
    match stripPat pat (c :: cs) with
    | some rest => stripAllFuel pat fuel rest
    | none => c :: stripAllFuel pat fuel cs

/-- Remove every occurrence of `pat` from `cs`. -/
def stripAll (pat : List Char) (cs : List Char) : List Char :=
  stripAllFuel pat cs.length cs

/-- Drop leading whitespace characters (JavaScript `trim`, left side). -/
def trimLeft : List Char → List Char
  | [] => []
  | c :: cs => if c.isWhitespace then trimLeft cs else c :: cs

/-- JavaScript `String.prototype.trim`: drop whitespace from both ends. -/
def trimChars (cs : List Char) : List Char :=
  (trimLeft (trimLeft cs).reverse).reverse

/-- The cleanup in `processResponse`:
`text.replace(/```json/g, '').replace(/```/g, '').trim()`. -/
def cleanResponse (text : String) : List Char :=
  trimChars (stripAll "```".toList (stripAll "```json".toList text.toList))

/-- Last-binding-wins lookup in a parsed object's member list, matching how
`JSON.parse` resolves duplicate keys in a JavaScript object. -/
def lookupMember : List (String × Json) → String → Option Json
  | [], _ => none
  | kv :: rest, key =>
    match lookupMember rest key with
    | some v => some v
    | none => if kv.1 = key then some kv.2 else none

/-- JavaScript optional member access `v?.k`: `none` models `undefined`. -/
def getProp (v : Json) (k : String) : Option Json :=
  match v with
  | Json.obj members => lookupMember members k
  | _ => none

/-- Model of `typeof x === 'number'` on an optional property. -/
def isNumProp : Option Json → Bool
  | some (Json.num _ _) => true
  | _ => false

/-- Model of `Array.isArray(x)` on an optional property. -/
def isArrProp : Option Json → Bool
  | some (Json.arr _) => true
  | _ => false

/-- The structure check in `processResponse`: `result?.score` is a number and
`result?.improvements` and `result?.strengths` are arrays. -/
def isValidStructure (r : Json) : Bool :=
  isNumProp (getProp r "score") && isArrProp (getProp r "improvements")
    && isArrProp (getProp r "strengths")

/-- What the `try` block of `processResponse` throws before the `catch`
replaces it: `JSON.parse`'s SyntaxError (the raw text is kept alongside,
as the adjacent `console.error` diagnostic preserves it), or the explicit
`throw new Error('Invalid response structure')`. -/
inductive ProcessError where
  | parseFail (raw : String) : ProcessError
  | invalidStructure : ProcessError
deriving DecidableEq

/-- The body of `processResponse`'s `try` block: clean, `JSON.parse`,
validate the structure, and return the parsed object unchanged. -/
def processResponseInner (text : String) : Except ProcessError Json :=
  match parseJson (cleanResponse text) with
  | none => Except.error (ProcessError.parseFail text)
  | some result =>
    if isValidStructure result then Except.ok result
    else Except.error ProcessError.invalidStructure

/-- Message of the error `processResponse`'s `catch` block rethrows for every
failure. -/
def processFailureMsg : String := "Failed to parse analysis results"

/-- `ResumeService.processResponse`: the `try/catch` turns any inner failure
into one `Error('Failed to parse analysis results')`. -/
def processResponse (text : String) : Except String Json :=
  match processResponseInner text with
  | Except.ok r => Except.ok r
  | Except.error _ => Except.error processFailureMsg

/-- An in-memory `File`/`Blob` as the service reads it: only its declared
media type and byte length are inspected before the remote call. -/
structure Blob where
  type : String
  size : Nat
deriving DecidableEq

/-- The static state of `ResumeService`: whether `initialize` has set
`this.ai` (the remote-service credential holder). -/
structure ServiceState where
  initialized : Bool
deriving DecidableEq

/-- Observable outcome of an entry point: the value returned or error thrown,
together with the number of outbound remote inference requests issued. -/
structure AnalyzeOutcome where
  result : Except String Json
  remoteCalls : Nat

/-- Message of `analyzeWithGemini`'s uninitialized-service error. -/
def notInitializedMsg : String :=
  "Service not initialized. Call ResumeService.initialize() first."

/-- Message of `analyzeResume`'s media-type error. -/
def unsupportedMediaTypeMsg : String := "Only PDF files are supported"

/-- Message of `analyzeResume`'s size-limit error. -/
def payloadTooLargeMsg : String := "File size must be less than 4MB"

/-- Message of `analyzeResumeFromUrl`'s non-PDF-content error. -/
def urlNotPdfMsg : String := "URL does not point to a PDF file"

/-- Message of `analyzeResumeFromUrl`'s fetch-failure error. -/
def fetchFailedMsg (status : Nat) : String :=
  "Failed to fetch PDF: " ++ toString status

/-- `ResumeService.getAnalysisPrompt`. In TypeScript it is a static method,
so the class state is ambient; the embedding passes that state explicitly
to make independence from it provable. The body returns one fixed string. -/
def getAnalysisPrompt (_state : ServiceState) : String :=
  "\n      Analyze this resume PDF and provide detailed feedback in the specified JSON format.\n      \n      As a professional career coach with 10+ years experience, evaluate:\n      \n      1. CONTENT QUALITY:\n      - Relevance to modern hiring practices\n      - Clarity and impact of professional summary\n      - Effectiveness of work experience descriptions\n      \n      2. ACHIEVEMENTS:\n      - Use of action verbs and power words\n      - Quantifiable results and metrics\n      - Demonstrated impact in roles\n      \n      3. TECHNICAL PRESENTATION:\n      - Skills section organization\n      - Technical proficiency demonstration\n      - Certifications and education\n      \n      4. DESIGN & FORMATTING:\n      - Visual hierarchy and readability\n      - Consistency in styling\n      - ATS (Applicant Tracking System) compatibility\n      \n      5. OVERALL EFFECTIVENESS:\n      - Strength for target industry/role\n      - Competitive edge\n      - Areas needing improvement\n      \n      Provide specific, actionable suggestions.\n      Highlight 3-5 key strengths.\n      Be professional but constructive.\n      \n      Return ONLY the JSON object in the specified format.\n    "

/-- `ResumeService.analyzeWithGemini`. The remote inference call is
environmental; `remoteText` abstracts the raw text it would return
(`response.text`). The method first checks `this.ai`, and only when
initialized encodes the file, issues exactly one `generateContent` request,
and processes the response. -/
def analyzeWithGemini (state : ServiceState) (remoteText : String) (_file : Blob) :
    AnalyzeOutcome :=
  if !state.initialized then
    { result := Except.error notInitializedMsg, remoteCalls := 0 }
  else
    { result := processResponse remoteText, remoteCalls := 1 }

/-- `ResumeService.analyzeResume`: media-type check, then the 4 MB size
check, then `analyzeWithGemini`; its `try/catch` logs and rethrows the same
error, so the observable outcome is unchanged. -/
def analyzeResume (state : ServiceState) (remoteText : String) (file : Blob) :
    AnalyzeOutcome :=
  if file.type ≠ "application/pdf" then
    { result := Except.error unsupportedMediaTypeMsg, remoteCalls := 0 }
  else if file.size > 4 * 1024 * 1024 then
    { result := Except.error payloadTooLargeMsg, remoteCalls := 0 }
  else analyzeWithGemini state remoteText file

/-- A completed `fetch`: its HTTP status and the blob of the body.
`ok` is the fetch API's success predicate (status in 200..299). -/
structure FetchResponse where
  status : Nat
  blob : Blob
deriving DecidableEq

/-- `Response.ok` of the fetch API: status in the inclusive range 200..299. -/
def FetchResponse.ok (r : FetchResponse) : Bool :=
  200 ≤ r.status && r.status ≤ 299

/-- `ResumeService.analyzeResumeFromUrl`, given the response the `fetch`
resolved with: non-ok status throws the fetch-failure error, a non-PDF blob
throws the URL error, otherwise the blob goes to `analyzeWithGemini` with no
size check; the `try/catch` logs and rethrows unchanged. -/
def analyzeResumeFromUrl (state : ServiceState) (remoteText : String)
    (resp : FetchResponse) : AnalyzeOutcome :=
  if !resp.ok then
    { result := Except.error (fetchFailedMsg resp.status), remoteCalls := 0 }
  else if resp.blob.type ≠ "application/pdf" then
    { result := Except.error urlNotPdfMsg, remoteCalls := 0 }
  else analyzeWithGemini state remoteText resp.blob

/-- Exact rational value of a parsed JSON number `mantissa * 10 ^ exp10`. -/
def numValue (m e : Int) : Rat :=
  if 0 ≤ e then (m : Rat) * 10 ^ e.toNat else (m : Rat) / 10 ^ (-e).toNat

/-- The spec's range constraint on a result's score: the `score` member is a
number whose value lies in `[0, 100]`. -/
def scoreInRange (v : Json) : Prop :=
  match getProp v "score" with
  | some (Json.num m e) => 0 ≤ numValue m e ∧ numValue m e ≤ 100
  | _ => False

/-- The spec's fenced example input to `normalize`. -/
def fencedInput : String :=
  "```json\n\x7b\"score\":82,\"improvements\":[\x7b\"category\":\"Metrics\",\"suggestion\":\"Quantify impact\"\x7d],\"strengths\":[\"Clear formatting\"]\x7d\n```"

/-- The object the spec expects back from the fenced example. -/
def fencedExpected : Json :=
  Json.obj [("score", Json.num 82 0),
    ("improvements", Json.arr [Json.obj [("category", Json.str "Metrics"),
      ("suggestion", Json.str "Quantify impact")]]),
    ("strengths", Json.arr [Json.str "Clear formatting"])]

/-- The spec's schema-violation example: `score` is a string. -/
def svInput : String :=
  "\x7b\"score\":\"high\",\"improvements\":[],\"strengths\":[]\x7d"

/-- A response whose score is 150, outside the spec's `[0, 100]` range. -/
def score150Input : String :=
  "\x7b\"score\":150,\"improvements\":[],\"strengths\":[]\x7d"

/-- The parse of `score150Input`. -/
def score150Obj : Json :=
  Json.obj [("score", Json.num 150 0), ("improvements", Json.arr []),
    ("strengths", Json.arr [])]

/-- Every error `processResponse` returns carries the single catch-all
message. -/
theorem processResponse_error_msg (t : String) (e : String)
    (h : processResponse t = Except.error e) : e = processFailureMsg := by
  unfold processResponse at h
  cases hi : processResponseInner t <;> rw [hi] at h
  · injection h with h2
    exact h2.symm
  · exact Except.noConfusion h

/-- C1 fails as stated: before initialization, a document that also fails
media-type validation gets the media-type error, not the
uninitialized-service error, because `analyzeResume` checks the media type
before `analyzeWithGemini` checks `this.ai`. -/
theorem claim_C1_counterexample :
    analyzeResume ⟨false⟩ "" ⟨"text/plain", 0⟩ =
      ⟨Except.error unsupportedMediaTypeMsg, 0⟩ ∧
    unsupportedMediaTypeMsg ≠ notInitializedMsg := by
  constructor
  · rfl
  · decide

/-- C1 amended: before initialization no outbound request is ever issued,
and every input that passes media-type and size validation gets the
uninitialized-service error; inputs failing validation get the respective
validation error instead. -/
theorem claim_C1_amended (state : ServiceState) (remoteText : String) (file : Blob)
    (hinit : state.initialized = false) :
    (analyzeResume state remoteText file).remoteCalls = 0 ∧
    (file.type = "application/pdf" → file.size ≤ 4 * 1024 * 1024 →
      analyzeResume state remoteText file = ⟨Except.error notInitializedMsg, 0⟩) := by
  constructor
  · unfold analyzeResume analyzeWithGemini
    rw [hinit]
    split_ifs <;> simp_all
  · intro hty hsz
    unfold analyzeResume analyzeWithGemini
    rw [hinit, hty]
    rw [if_neg (by simp), if_neg (by omega)]
    rfl

/-- C1 amended, witnessed on a 1000-byte PDF with the service uninitialized. -/
theorem claim_C1_witness :
    (analyzeResume ⟨false⟩ "" ⟨"application/pdf", 1000⟩).remoteCalls = 0 ∧
    analyzeResume ⟨false⟩ "" ⟨"application/pdf", 1000⟩ =
      ⟨Except.error notInitializedMsg, 0⟩ := by
  have h := claim_C1_amended ⟨false⟩ "" ⟨"application/pdf", 1000⟩ rfl
  exact ⟨h.1, h.2 rfl (by decide)⟩

/-- C2: a document whose media type is not `application/pdf` always gets the
media-type error, with no outbound request, whatever the service state. -/
theorem claim_C2 (state : ServiceState) (remoteText : String) (file : Blob)
    (hty : file.type ≠ "application/pdf") :
    analyzeResume state remoteText file =
      ⟨Except.error unsupportedMediaTypeMsg, 0⟩ := by
  unfold analyzeResume
  rw [if_pos hty]

/-- C2 witnessed on a plain-text document with the service initialized. -/
theorem claim_C2_witness :
    analyzeResume ⟨true⟩ "" ⟨"text/plain", 100⟩ =
      ⟨Except.error unsupportedMediaTypeMsg, 0⟩ :=
  claim_C2 ⟨true⟩ "" ⟨"text/plain", 100⟩ (by decide)

/-- C3: a PDF document over 4 MiB gets the size error with no outbound
request, and a PDF document of at most 4 MiB passes both validations and
reaches `analyzeWithGemini`. -/
theorem claim_C3 (state : ServiceState) (remoteText : String) (file : Blob)
    (hty : file.type = "application/pdf") :
    (file.size > 4 * 1024 * 1024 →
      analyzeResume state remoteText file = ⟨Except.error payloadTooLargeMsg, 0⟩) ∧
    (file.size ≤ 4 * 1024 * 1024 →
      analyzeResume state remoteText file = analyzeWithGemini state remoteText file) := by
  constructor
  · intro hsz
    unfold analyzeResume
    rw [hty, if_neg (by simp), if_pos hsz]
  · intro hsz
    unfold analyzeResume
    rw [hty, if_neg (by simp), if_neg (by omega)]

/-- C3 witnessed: a 5 MiB PDF is rejected as too large; a 1000-byte PDF
passes validation and proceeds to `analyzeWithGemini`. -/
theorem claim_C3_witness :
    analyzeResume ⟨true⟩ "" ⟨"application/pdf", 5 * 1024 * 1024⟩ =
      ⟨Except.error payloadTooLargeMsg, 0⟩ ∧
    analyzeResume ⟨true⟩ "" ⟨"application/pdf", 1000⟩ =
      analyzeWithGemini ⟨true⟩ "" ⟨"application/pdf", 1000⟩ :=
  ⟨(claim_C3 ⟨true⟩ "" ⟨"application/pdf", 5 * 1024 * 1024⟩ rfl).1 (by decide),
   (claim_C3 ⟨true⟩ "" ⟨"application/pdf", 1000⟩ rfl).2 (by decide)⟩

/-- C8: `getAnalysisPrompt` returns the same text whatever the service
state, so any two calls return identical text independent of prior state
(and it takes no other input). -/
theorem claim_C8 (s1 s2 : ServiceState) :
    getAnalysisPrompt s1 = getAnalysisPrompt s2 := rfl

/-- A successful `processResponse` comes from a successful inner body, so
the returned object passed the structure check. -/
theorem processResponse_ok_valid (text : String) (v : Json)
    (h : processResponse text = Except.ok v) : isValidStructure v = true := by
  unfold processResponse at h
  cases hi : processResponseInner text <;> rw [hi] at h
  · exact Except.noConfusion h
  · injection h with h2
    subst h2
    unfold processResponseInner at hi
    split at hi
    · exact Except.noConfusion hi
    · split at hi
      · injection hi with h3
        subst h3
        assumption
      · exact Except.noConfusion hi

/-- C4 fails as stated: on the spec's own schema-violation example the
surfaced error is the very same `'Failed to parse analysis results'` error
that a parse failure produces — the inner
`throw new Error('Invalid response structure')` is swallowed by the `catch`
block, so the caller cannot distinguish the two failures. -/
theorem claim_C4_counterexample :
    processResponse svInput = Except.error processFailureMsg ∧
    processResponse svInput = processResponse "not json" := by
  constructor <;> rfl

/-- C4 amended: on every parseable input whose `score` is not a number or
whose `improvements` or `strengths` is not an array, the `try` block throws
the internal `'Invalid response structure'` error, but the `catch` rethrows
the same `'Failed to parse analysis results'` error used for parse
failures, so the error surfaced to the caller is identical to — not
distinct from — the one signalled on any unparseable input. -/
theorem claim_C4_amended (text : String) (r : Json)
    (hp : parseJson (cleanResponse text) = some r)
    (hv : isValidStructure r = false) :
    processResponseInner text = Except.error ProcessError.invalidStructure ∧
    processResponse text = Except.error processFailureMsg ∧
    ∀ s : String, parseJson (cleanResponse s) = none →
      processResponse text = processResponse s := by
  have hi : processResponseInner text = Except.error ProcessError.invalidStructure := by
    unfold processResponseInner
    rw [hp]
    simp [hv]
  refine ⟨hi, ?_, ?_⟩
  · unfold processResponse
    rw [hi]
  · intro s hs
    have his : processResponseInner s = Except.error (ProcessError.parseFail s) := by
      unfold processResponseInner
      rw [hs]
    unfold processResponse
    rw [hi, his]

/-- C4 amended, witnessed on the spec's schema-violation example against the
spec's parse-failure example. -/
theorem claim_C4_witness :
    processResponseInner svInput = Except.error ProcessError.invalidStructure ∧
    processResponse svInput = Except.error processFailureMsg ∧
    processResponse svInput = processResponse "not json" := by
  have h := claim_C4_amended svInput
    (Json.obj [("score", Json.str "high"), ("improvements", Json.arr []),
      ("strengths", Json.arr [])]) rfl rfl
  exact ⟨h.1, h.2.1, h.2.2 "not json" rfl⟩

/-- C5: on every input whose cleaned text fails to parse as JSON, the inner
body throws the parse failure (raw text preserved for diagnostics) and the
surfaced result is the `'Failed to parse analysis results'` error — never a
successful result carrying the raw text. -/
theorem claim_C5 (text : String)
    (hp : parseJson (cleanResponse text) = none) :
    processResponseInner text = Except.error (ProcessError.parseFail text) ∧
    processResponse text = Except.error processFailureMsg := by
  have hi : processResponseInner text = Except.error (ProcessError.parseFail text) := by
    unfold processResponseInner
    rw [hp]
  exact ⟨hi, by unfold processResponse; rw [hi]⟩

/-- C5 witnessed on the spec's example input `'not json'`. -/
theorem claim_C5_witness :
    processResponseInner "not json" =
      Except.error (ProcessError.parseFail "not json") ∧
    processResponse "not json" = Except.error processFailureMsg :=
  claim_C5 "not json" rfl

/-- C6: the spec's fenced example is stripped of its code-fence markers and
returned as exactly the expected object, untransformed. -/
theorem claim_C6 :
    processResponse fencedInput = Except.ok fencedExpected := rfl

/-- C7 fails as stated: a response with score 150 is returned successfully,
and its score lies outside the claimed range `[0, 100]` — the code never
checks the numeric range. -/
theorem claim_C7_counterexample :
    processResponse score150Input = Except.ok score150Obj ∧
    ¬ scoreInRange score150Obj := by
  constructor
  · rfl
  · intro h
    have h2 : (0 : Rat) ≤ numValue 150 0 ∧ numValue 150 0 ≤ 100 := h
    have h3 : numValue 150 0 = 150 := by norm_num [numValue]
    rw [h3] at h2
    exact absurd h2.2 (by norm_num)

/-- C7 amended: every successfully returned result has a numeric `score` and
has `improvements` and `strengths` present as sequences (possibly empty),
but no range constraint on `score` is enforced. -/
theorem claim_C7_amended (text : String) (v : Json)
    (h : processResponse text = Except.ok v) :
    isNumProp (getProp v "score") = true ∧
    isArrProp (getProp v "improvements") = true ∧
    isArrProp (getProp v "strengths") = true := by
  have hv := processResponse_ok_valid text v h
  unfold isValidStructure at hv
  simp only [Bool.and_eq_true] at hv
  exact ⟨hv.1.1, hv.1.2, hv.2⟩

/-- C7 amended, witnessed on the score-150 response. -/
theorem claim_C7_witness :
    isNumProp (getProp score150Obj "score") = true ∧
    isArrProp (getProp score150Obj "improvements") = true ∧
    isArrProp (getProp score150Obj "strengths") = true :=
  claim_C7_amended score150Input score150Obj (by rfl)

/-- C9: a fetch resolving with a non-success status makes
`analyzeResumeFromUrl` throw the fetch-failure error with no outbound
inference request, and a successfully fetched body whose media type is not
`application/pdf` makes it throw the URL error, again with no outbound
inference request. -/
theorem claim_C9 (state : ServiceState) (remoteText : String)
    (resp : FetchResponse) :
    (resp.ok = false →
      analyzeResumeFromUrl state remoteText resp =
        ⟨Except.error (fetchFailedMsg resp.status), 0⟩) ∧
    (resp.ok = true → resp.blob.type ≠ "application/pdf" →
      analyzeResumeFromUrl state remoteText resp =
        ⟨Except.error urlNotPdfMsg, 0⟩) := by
  constructor
  · intro hok
    unfold analyzeResumeFromUrl
    rw [hok]
    rfl
  · intro hok hty
    unfold analyzeResumeFromUrl
    rw [hok]
    simp only [Bool.not_true, Bool.false_eq_true, if_false]
    rw [if_pos hty]

/-- C9 witnessed: a 404 fetch yields the fetch-failure error, and a fetched
HTML body with a 200 status yields the URL error, each with zero outbound
requests. -/
theorem claim_C9_witness :
    analyzeResumeFromUrl ⟨true⟩ "" ⟨404, ⟨"application/pdf", 100⟩⟩ =
      ⟨Except.error (fetchFailedMsg 404), 0⟩ ∧
    analyzeResumeFromUrl ⟨true⟩ "" ⟨200, ⟨"text/html", 100⟩⟩ =
      ⟨Except.error urlNotPdfMsg, 0⟩ :=
  ⟨(claim_C9 ⟨true⟩ "" ⟨404, ⟨"application/pdf", 100⟩⟩).1 (by decide),
   (claim_C9 ⟨true⟩ "" ⟨200, ⟨"text/html", 100⟩⟩).2 (by decide) (by decide)⟩

/-- C10: the URL entry point has no size check — for every successfully
fetched PDF body, whatever its byte length, an initialized service issues
exactly one outbound inference request and processes its response, and on
this path the size-limit error is never thrown. -/
theorem claim_C10 (state : ServiceState) (remoteText : String)
    (resp : FetchResponse) (hok : resp.ok = true)
    (hty : resp.blob.type = "application/pdf") :
    (state.initialized = true →
      analyzeResumeFromUrl state remoteText resp = ⟨processResponse remoteText, 1⟩) ∧
    (analyzeResumeFromUrl state remoteText resp).result ≠
      Except.error payloadTooLargeMsg := by
  have hred : analyzeResumeFromUrl state remoteText resp =
      analyzeWithGemini state remoteText resp.blob := by
    unfold analyzeResumeFromUrl
    rw [hok]
    simp only [Bool.not_true, Bool.false_eq_true, if_false]
    rw [if_neg (by simp [hty])]
  constructor
  · intro hinit
    rw [hred]
    unfold analyzeWithGemini
    rw [hinit]
    rfl
  · rw [hred]
    unfold analyzeWithGemini
    cases hinit : state.initialized
    · intro hcontra
      simp only [Bool.not_false, if_pos] at hcontra
      have : notInitializedMsg = payloadTooLargeMsg := by
        injection hcontra
      exact absurd this (by decide)
    · intro hcontra
      simp only [Bool.not_true, Bool.false_eq_true, if_false] at hcontra
      have := processResponse_error_msg remoteText payloadTooLargeMsg hcontra
      exact absurd this (by decide)

/-- C10 witnessed on a fetched 5 MiB PDF — larger than the 4 MiB ceiling of
the in-memory path — which still triggers exactly one outbound request. -/
theorem claim_C10_witness :
    analyzeResumeFromUrl ⟨true⟩ "x" ⟨200, ⟨"application/pdf", 5 * 1024 * 1024⟩⟩ =
      ⟨processResponse "x", 1⟩ ∧
    (analyzeResumeFromUrl ⟨true⟩ "x" ⟨200, ⟨"application/pdf", 5 * 1024 * 1024⟩⟩).result ≠
      Except.error payloadTooLargeMsg :=
  ⟨(claim_C10 ⟨true⟩ "x" ⟨200, ⟨"application/pdf", 5 * 1024 * 1024⟩⟩
      (by decide) rfl).1 rfl,
   (claim_C10 ⟨true⟩ "x" ⟨200, ⟨"application/pdf", 5 * 1024 * 1024⟩⟩
      (by decide) rfl).2⟩

end ResumePlus
